import Mathlib

set_option maxRecDepth 100000

/-!
Shallow embedding of the backlight animation driver (`backlight.py`):
the `BacklightDriver` class, its command queue, the worker loop `_animate`,
and the render routines `_rainbowCycle`, `_colorWipe`, `_wheel`.

Time (`time.sleep`) and logging calls are side effects with no influence on
the data state and are elided.  The MQTT transport layer is out of scope.
-/

/-- An RGB triple as passed to the neopixel `Color(red, green, blue)`
constructor (channels named positionally as in the library signature). -/
structure Color where
  red : Nat
  green : Nat
  blue : Nat
deriving DecidableEq, Repr

/-- A caller-facing color dictionary with keys `r`, `g`, `b`
(as received by `set_solid_color`). -/
structure RGB where
  r : Nat
  g : Nat
  b : Nat
deriving DecidableEq, Repr

/-- The `_state` dictionary: keys `state`, `effect`, `color`; a key absent
from the dict is `none`.  (`__init__` populates `state` and `effect`;
`color` appears only after `set_solid_color`.) -/
structure StateDict where
  state : Option String
  effect : Option String
  color : Option RGB
deriving DecidableEq, Repr

/-- `BacklightDriver.STATE_ON` -/
def STATE_ON : String := "ON"

/-- `BacklightDriver.STATE_OFF` -/
def STATE_OFF : String := "OFF"

/-- The string literal for the rainbow effect. -/
def EFFECT_RAINBOW : String := "rainbow"

/-- The string literal for the solid effect. -/
def EFFECT_SOLID : String := "solid"

/-- `BacklightDriver.VALID_EFFECTS = ['rainbow', 'solid']` -/
def VALID_EFFECTS : List String := [EFFECT_RAINBOW, EFFECT_SOLID]

/-- The in-memory LED strip: `pixels` is the buffer written by
`setPixelColor`, `shown` the last buffer flushed to hardware by `show()`. -/
structure Strip where
  pixels : List Color
  shown : List Color
deriving DecidableEq, Repr

/-- `strip.setPixelColor(i, c)` -/
def Strip.setPixelColor (s : Strip) (i : Nat) (c : Color) : Strip :=
  { s with pixels := s.pixels.set i c }

/-- `strip.show()` — flushes the pixel buffer to the hardware. -/
def Strip.showPixels (s : Strip) : Strip :=
  { s with shown := s.pixels }

/-- `strip.numPixels()` -/
def Strip.numPixels (s : Strip) : Nat := s.pixels.length

/-- The command constants `CMD_ON .. CMD_CLEAR`.  Queue entries are
`(cmd, args)` pairs; in this file only `(CMD_ON, None)` (from `set_effect`)
and `(CMD_CLEAR, ms)` (from `turn_off`) are ever enqueued. -/
inductive Cmd
  | on
  | off
  | exitWorker
  | rainbow
  | solid
  | clear
deriving DecidableEq, Repr

/-- `BacklightDriver._wheel(pos)`: generate rainbow colors across 0-255
positions.  Three branches: `pos < 85`, `pos < 170`, else. -/
def wheel (pos : Nat) : Color :=
  if pos < 85 then
    ⟨pos * 3, 255 - pos * 3, 0⟩
  else if pos < 170 then
    let p := pos - 85
    ⟨255 - p * 3, 0, p * 3⟩
  else
    let p := pos - 170
    ⟨0, p * 3, 255 - p * 3⟩

/-- The color `_rainbowCycle` writes to pixel `i` of an `n`-pixel strip in
phase `j`: `_wheel((int(i * 256 / numPixels) + j) & 255)` (line 132). -/
def rainbowPixelColor (n i j : Nat) : Color :=
  wheel ((i * 256 / n + j) &&& 255)

/-- Inner pixel loop of `_rainbowCycle` for one phase `j` over the index
list `L` (in the source, `range(numPixels)`).  `isOn t` is the value of the
shared flag `self._is_on` observed at the `t`-th read (the flag is written
concurrently by `turn_off`/`turn_on`/`set_effect`); after each pixel write
the loop re-checks the flag and returns early when it is false.  Returns
the strip, the next read index (also the running count of pixel writes,
one write per check), and whether the routine returned early. -/
def rainbowInnerGo (isOn : Nat → Bool) (n j : Nat) :
    List Nat → Strip → Nat → Strip × Nat × Bool
  | [], st, t => (st, t, false)
  | i :: rest, st, t =>
    let st2 := st.setPixelColor i (rainbowPixelColor n i j)
    if isOn t then
      rainbowInnerGo isOn n j rest st2 (t + 1)
    else
      (st2, t + 1, true)

/-- Outer phase loop of `_rainbowCycle` over the phase list `L` (in the
source, `range(256 * iterations)`); after each full inner loop the buffer
is flushed with `show()` and the worker sleeps `wait_ms`. -/
def rainbowOuterGo (isOn : Nat → Bool) (n : Nat) :
    List Nat → Strip → Nat → Strip × Nat
  | [], st, t => (st, t)
  | j :: rest, st, t =>
    let r := rainbowInnerGo isOn n j (List.range n) st t
    if r.2.2 then (r.1, r.2.1)
    else rainbowOuterGo isOn n rest (r.1.showPixels) r.2.1

/-- `BacklightDriver._rainbowCycle(wait_ms=20, iterations=5)`: phases
`j in range(256*5)`, pixels `i in range(numPixels)`.  Returns the strip and
the total number of pixel writes performed (= flag reads consumed). -/
def rainbowCycle (isOn : Nat → Bool) (st : Strip) : Strip × Nat :=
  rainbowOuterGo isOn st.numPixels (List.range (256 * 5)) st 0

/-- Loop body of `_colorWipe`: for each `i` in `L`, `setPixelColor(i, c)`,
`show()`, `sleep(wait_ms)`.  No re-check of any flag occurs between pixel
writes.  The second component counts pixel writes. -/
def colorWipeGo (c : Color) : List Nat → Strip × Nat → Strip × Nat
  | [], r => r
  | i :: rest, (st, w) =>
    colorWipeGo c rest ((st.setPixelColor i c).showPixels, w + 1)

/-- `BacklightDriver._colorWipe(color, wait_ms=50)`: wipe `c` across the
display one pixel at a time. -/
def colorWipe (st : Strip) (c : Color) : Strip × Nat :=
  colorWipeGo c (List.range st.numPixels) (st, 0)

/-- The `BacklightDriver` instance state.  `has_callback` records whether
`set_state_callback` has installed a callback; `published` is the sequence
of snapshots the callback has been invoked with (most recent last). -/
structure Driver where
  led_count : Nat
  state : StateDict
  has_callback : Bool
  strip : Strip
  cmd_queue : List (Cmd × Option Nat)
  animation_running : Bool
  is_on : Bool
  solid_color : Color
  published : List StateDict
deriving DecidableEq, Repr

/-- `BacklightDriver._update_state(k, v)`: mutate one key of `_state`
(here: apply `f` to the dict), then invoke the state callback with the
full updated dict if one is registered. -/
def Driver.update_state (d : Driver) (f : StateDict → StateDict) : Driver :=
  let s := f d.state
  { d with
    state := s
    published := d.published ++ (if d.has_callback then [s] else []) }

/-- `BacklightDriver.__init__(led_count, led_pin)`: state dict gets
`state = OFF` and `effect = 'rainbow'` (`VALID_EFFECTS[0]`), the strip
buffer is allocated (all black), the queue is empty, the worker is not
running, `_is_on = False`, `_solid_color = Color(255, 0, 0)`. -/
def initDriver (led_count : Nat) : Driver :=
  let d : Driver :=
    { led_count := led_count
      state := ⟨none, none, none⟩
      has_callback := false
      strip := ⟨List.replicate led_count ⟨0, 0, 0⟩, List.replicate led_count ⟨0, 0, 0⟩⟩
      cmd_queue := []
      animation_running := false
      is_on := false
      solid_color := ⟨255, 0, 0⟩
      published := [] }
  let d := d.update_state (fun s => { s with state := some STATE_OFF })
  d.update_state (fun s => { s with effect := some EFFECT_RAINBOW })

/-- `BacklightDriver.set_state_callback(callback)` -/
def Driver.set_state_callback (d : Driver) : Driver :=
  { d with has_callback := true }

/-- `BacklightDriver.turn_on()`: `_is_on = True`, publish `state = ON`. -/
def Driver.turn_on (d : Driver) : Driver :=
  ({ d with is_on := true }).update_state (fun s => { s with state := some STATE_ON })

/-- `BacklightDriver.turn_off(ms=50)`: `_is_on = False`, publish
`state = OFF`, then enqueue `(CMD_CLEAR, ms)`. -/
def Driver.turn_off (d : Driver) (ms : Nat) : Driver :=
  let d := ({ d with is_on := false }).update_state (fun s => { s with state := some STATE_OFF })
  { d with cmd_queue := d.cmd_queue ++ [(Cmd.clear, some ms)] }

/-- `BacklightDriver.set_effect(effect)`: if the name is not in
`VALID_EFFECTS`, log and return with nothing changed; otherwise publish
`effect`, set `_is_on = False`, and enqueue `(CMD_ON, None)`. -/
def Driver.set_effect (d : Driver) (effect : String) : Driver :=
  if effect ∉ VALID_EFFECTS then d
  else
    let d := d.update_state (fun s => { s with effect := some effect })
    let d := { d with is_on := false }
    { d with cmd_queue := d.cmd_queue ++ [(Cmd.on, none)] }

/-- `BacklightDriver.set_solid_color(color)`: store
`Color(color['g'], color['r'], color['b'])` — note the red/green argument
swap — and publish the caller's original dict under the `color` key. -/
def Driver.set_solid_color (d : Driver) (color : RGB) : Driver :=
  ({ d with solid_color := ⟨color.g, color.r, color.b⟩ }).update_state
    (fun s => { s with color := some color })

/-- `BacklightDriver.start()`: launch the worker thread, set
`_animation_running = True`, then `_is_on = True` and publish `state = ON`. -/
def Driver.start (d : Driver) : Driver :=
  let d := { d with animation_running := true }
  ({ d with is_on := true }).update_state (fun s => { s with state := some STATE_ON })

/-- One iteration of the worker loop body in `_animate`: dequeue and
dispatch at most one command (`CMD_ON` → `turn_on`, `CMD_OFF` → `turn_off`
with its default 50 ms, `CMD_CLEAR` → `_colorWipe(Color(0,0,0))`), then if
`_is_on`, render one step of the current effect.  Within a single-threaded
iteration `_is_on` is constant, so the rainbow routine reads it through a
constant oracle. -/
def Driver.animateIteration (d : Driver) : Driver :=
  let d :=
    match d.cmd_queue with
    | [] => d
    | (cmd, _args) :: rest =>
      let d := { d with cmd_queue := rest }
      match cmd with
      | Cmd.on => d.turn_on
      | Cmd.off => d.turn_off 50
      | Cmd.clear => { d with strip := (colorWipe d.strip ⟨0, 0, 0⟩).1 }
      | _ => d
  if d.is_on then
    if d.state.effect = some EFFECT_RAINBOW then
      { d with strip := (rainbowCycle (fun _ => d.is_on) d.strip).1 }
    else if d.state.effect = some EFFECT_SOLID then
      { d with strip := (colorWipe d.strip d.solid_color).1 }
    else d
  else d

/-- The worker loop of `_animate`: `while self._animation_running: <body>`.
`running k` is the value of the shared flag `_animation_running` observed
at its `k`-th read (the flag is written concurrently by `start`/`stop`).
`fuel` bounds the number of iterations we unfold; `none` means the loop
was still running when the fuel ran out. -/
def animateLoopAux (running : Nat → Bool) : Nat → Nat → Driver → Option Driver
  | _, 0, _ => none
  | k, fuel + 1, d =>
    if running k then animateLoopAux running (k + 1) fuel d.animateIteration
    else some d

/-- The claimed wheel invariant: exactly one RGB channel is 0 and the
other two sum to 255. -/
def oneZeroSum255 (c : Color) : Prop :=
  (c.red = 0 ∧ 0 < c.green ∧ 0 < c.blue ∧ c.green + c.blue = 255) ∨
  (c.green = 0 ∧ 0 < c.red ∧ 0 < c.blue ∧ c.red + c.blue = 255) ∨
  (c.blue = 0 ∧ 0 < c.red ∧ 0 < c.green ∧ c.red + c.green = 255)

instance (c : Color) : Decidable (oneZeroSum255 c) := by
  unfold oneZeroSum255; infer_instance

/-- Continuity at the 84-to-85 segment transition: each channel of
`wheel 84` and `wheel 85` differs by at most 3. -/
def wheelContinuityAt85 : Prop :=
  Nat.dist (wheel 84).red (wheel 85).red ≤ 3 ∧
  Nat.dist (wheel 84).green (wheel 85).green ≤ 3 ∧
  Nat.dist (wheel 84).blue (wheel 85).blue ≤ 3

instance : Decidable wheelContinuityAt85 := by
  unfold wheelContinuityAt85; infer_instance

/-- Modelled from the spec (refinement target for C4): the spec's
three-segment piecewise-linear wheel.  hue in [0,85): (hue*3, 255-hue*3, 0);
hue in [85,170): (255-h*3, 0, h*3) with h = hue-85; hue in [170,256):
(0, h*3, 255-h*3) with h = hue-170. -/
def wheelSpec (hue : Nat) : Color :=
  if hue < 85 then ⟨hue * 3, 255 - hue * 3, 0⟩
  else if hue < 170 then ⟨255 - (hue - 85) * 3, 0, (hue - 85) * 3⟩
  else if hue < 256 then ⟨0, (hue - 170) * 3, 255 - (hue - 170) * 3⟩
  else ⟨0, 0, 0⟩

/-- The driver after the call sequence `set_state_callback`; `start()`;
`set_solid_color(c)`; `set_effect('solid')`; `turn_on()` on an `n`-LED
strip (the sequence of claims C5 and C6). -/
def cmdSeq (n : Nat) (c : RGB) : Driver :=
  ((((initDriver n).set_state_callback).start).set_solid_color c
    |>.set_effect EFFECT_SOLID).turn_on

/-- The driver right after `set_state_callback`; `start()`. -/
def startedDriver (n : Nat) : Driver :=
  ((initDriver n).set_state_callback).start

/-- A concrete flag schedule for witnesses: the `_is_on` (resp.
`_animation_running`) flag reads true on the first two reads and false
from the third read on (a TurnOff/stop landed there). -/
def offAfterTwo (s : Nat) : Bool := s < 2

/-- A concrete 4-pixel all-white strip for witnesses. -/
def whiteStrip4 : Strip :=
  ⟨List.replicate 4 ⟨255, 255, 255⟩, List.replicate 4 ⟨255, 255, 255⟩⟩

/-- An effect name outside `VALID_EFFECTS`. -/
def badEffect : String := "invalid"

/-! ## Helper lemmas -/

/-- Masking with 255 is reduction mod 256 (the `& 255` on line 132). -/
theorem land_255_eq_mod (x : Nat) : x &&& 255 = x % 256 := by
  have h : (255 : Nat) = 2 ^ 8 - 1 := by norm_num
  have h2 : (256 : Nat) = 2 ^ 8 := by norm_num
  rw [h, h2, Nat.and_pow_two_sub_one_eq_mod]

/-- On the meaningful domain [0, 256) the source `_wheel` agrees with the
spec's piecewise formula. -/
theorem wheel_eq_wheelSpec (pos : Nat) (h : pos < 256) : wheel pos = wheelSpec pos := by
  unfold wheel wheelSpec
  by_cases h85 : pos < 85
  · simp [h85]
  · by_cases h170 : pos < 170
    · simp [h85, h170]
    · simp [h85, h170, h]

/-- `colorWipeGo` preserves the pixel-buffer length. -/
theorem colorWipeGo_length (c : Color) :
    ∀ (L : List Nat) (st : Strip) (w : Nat),
      (colorWipeGo c L (st, w)).1.pixels.length = st.pixels.length := by
  intro L
  induction L with
  | nil => intro st w; rfl
  | cons i rest ih =>
    intro st w
    simp only [colorWipeGo]
    rw [ih]
    simp [Strip.setPixelColor, Strip.showPixels]

/-- `colorWipeGo` performs one pixel write per index in its list. -/
theorem colorWipeGo_count (c : Color) :
    ∀ (L : List Nat) (st : Strip) (w : Nat),
      (colorWipeGo c L (st, w)).2 = w + L.length := by
  intro L
  induction L with
  | nil => intro st w; simp [colorWipeGo]
  | cons i rest ih =>
    intro st w
    simp only [colorWipeGo, ih, List.length_cons]
    omega

/-- After `colorWipeGo`, every index that was in the list (or already held
`c`) holds `c`. -/
theorem colorWipeGo_getElem (c : Color) :
    ∀ (L : List Nat) (st : Strip) (w k : Nat),
      k < st.pixels.length →
      (k ∈ L ∨ st.pixels[k]? = some c) →
      ((colorWipeGo c L (st, w)).1.pixels)[k]? = some c := by
  intro L
  induction L with
  | nil =>
    intro st w k _hk hmem
    rcases hmem with hmem | hmem
    · exact absurd hmem (List.not_mem_nil k)
    · exact hmem
  | cons i rest ih =>
    intro st w k hk hmem
    simp only [colorWipeGo]
    have hlen : ((st.setPixelColor i c).showPixels).pixels.length = st.pixels.length := by
      simp [Strip.setPixelColor, Strip.showPixels]
    by_cases hki : k = i
    · subst hki
      refine ih _ _ _ (by omega) (Or.inr ?_)
      simp [Strip.setPixelColor, Strip.showPixels, List.getElem?_set_self hk]
    · rcases hmem with hmem | hmem
      · rcases List.mem_cons.mp hmem with hmem | hmem
        · exact absurd hmem.symm (fun h => hki h.symm)
        · exact ih _ _ _ (by omega) (Or.inl hmem)
      · refine ih _ _ _ (by omega) (Or.inr ?_)
        simpa [Strip.setPixelColor, Strip.showPixels,
          List.getElem?_set_ne (fun h => hki h.symm)] using hmem

/-- `_colorWipe` writes `c` to every pixel of the strip. -/
theorem colorWipe_pixels_getElem (st : Strip) (c : Color) (k : Nat)
    (hk : k < st.numPixels) :
    ((colorWipe st c).1.pixels)[k]? = some c := by
  unfold colorWipe
  exact colorWipeGo_getElem c _ st 0 k hk (Or.inl (List.mem_range.mpr hk))

/-- `_colorWipe` performs exactly `numPixels` pixel writes, independent of
any flag. -/
theorem colorWipe_count (st : Strip) (c : Color) :
    (colorWipe st c).2 = st.numPixels := by
  unfold colorWipe
  rw [colorWipeGo_count]
  simp

/-- Inner rainbow loop: when the `_is_on` flag reads false from read index
`T` on, the loop consumes at most `T + 1` reads (one pixel write per read),
and if it did not return early it consumed at most `T`. -/
theorem rainbowInnerGo_bound (isOn : Nat → Bool) (T n j : Nat)
    (hT : ∀ s, T ≤ s → isOn s = false) :
    ∀ (L : List Nat) (st : Strip) (t : Nat), t ≤ T →
      (rainbowInnerGo isOn n j L st t).2.1 ≤ T + 1 ∧
      ((rainbowInnerGo isOn n j L st t).2.2 = false →
        (rainbowInnerGo isOn n j L st t).2.1 ≤ T) := by
  intro L
  induction L with
  | nil =>
    intro st t ht
    exact ⟨Nat.le_succ_of_le ht, fun _ => ht⟩
  | cons i rest ih =>
    intro st t ht
    simp only [rainbowInnerGo]
    cases hOn : isOn t with
    | false =>
      simp only [hOn, Bool.false_eq_true, if_false]
      exact ⟨by omega, fun h => by cases h⟩
    | true =>
      have htT : t < T := by
        by_contra hle
        have := hT t (by omega)
        rw [this] at hOn
        cases hOn
      simp only [hOn, if_true]
      exact ih _ (t + 1) (by omega)

/-- Outer rainbow loop: same read bound as the inner loop. -/
theorem rainbowOuterGo_bound (isOn : Nat → Bool) (T n : Nat)
    (hT : ∀ s, T ≤ s → isOn s = false) :
    ∀ (L : List Nat) (st : Strip) (t : Nat), t ≤ T →
      (rainbowOuterGo isOn n L st t).2 ≤ T + 1 := by
  intro L
  induction L with
  | nil =>
    intro st t ht
    exact Nat.le_succ_of_le ht
  | cons j rest ih =>
    intro st t ht
    simp only [rainbowOuterGo]
    have hinner := rainbowInnerGo_bound isOn T n j hT (List.range n) st t ht
    cases hE : (rainbowInnerGo isOn n j (List.range n) st t).2.2 with
    | true => simp only [hE, if_true]; exact hinner.1
    | false =>
      simp only [hE, Bool.false_eq_true, if_false]
      exact ih _ _ (hinner.2 hE)

/-- Processing a queued `CMD_ON` in the worker loop powers the backlight
on; the subsequent render step does not change the power flag. -/
theorem animateIteration_is_on_of_queue_on (d : Driver) (rest : List (Cmd × Option Nat))
    (hq : d.cmd_queue = (Cmd.on, none) :: rest) :
    d.animateIteration.is_on = true := by
  unfold Driver.animateIteration
  rw [hq]
  simp only [Driver.turn_on, Driver.update_state]
  split
  · split
    · rfl
    · split
      · rfl
      · rfl
  · rfl

/-- The worker loop exits within `N + 1` iterations once the
`_animation_running` flag reads false at read `N`. -/
theorem animateLoopAux_isSome (running : Nat → Bool) (N : Nat) (hN : running N = false) :
    ∀ (fuel k : Nat) (d : Driver), k ≤ N → N - k < fuel →
      (animateLoopAux running k fuel d).isSome = true := by
  intro fuel
  induction fuel with
  | zero => intro k d _hk hf; omega
  | succ fuel ih =>
    intro k d hk hf
    simp only [animateLoopAux]
    cases hr : running k with
    | false => simp [hr]
    | true =>
      have hkN : k < N := by
        rcases Nat.lt_or_ge k N with h | h
        · exact h
        · have hkeq : k = N := by omega
          rw [hkeq, hN] at hr
          cases hr
      simp only [hr, if_true]
      exact ih (k + 1) d.animateIteration (by omega) (by omega)

/-! ## Claim theorems -/

/-- C1 (amended): when a TurnOff clears the `_is_on` flag so that every
read from index `T` on returns false, the in-progress `_rainbowCycle`
observes the flag between pixel writes and performs at most `T + 1` writes
(never the full 256*iterations cycle); the `_colorWipe` routine performs no
such re-check — it always performs exactly `numPixels` writes — but it is
itself bounded, and the clear wipe the worker subsequently dequeues leaves
every pixel black. -/
theorem render_interrupt_latency (isOn : Nat → Bool) (T : Nat) (st : Strip) (c : Color)
    (hT : ∀ s, T ≤ s → isOn s = false) :
    (rainbowCycle isOn st).2 ≤ T + 1 ∧
    (colorWipe st c).2 = st.numPixels ∧
    (∀ k, k < st.numPixels →
      ((colorWipe st ⟨0, 0, 0⟩).1.pixels)[k]? = some ⟨0, 0, 0⟩) := by
  refine ⟨?_, colorWipe_count st c, fun k hk => colorWipe_pixels_getElem st _ k hk⟩
  unfold rainbowCycle
  exact rainbowOuterGo_bound isOn T st.numPixels hT _ st 0 (Nat.zero_le T)

/-- C1 witness: with the `_is_on` flag reading false from the third read
on (`T = 2`) the rainbow render on a 4-pixel strip performs at most 3
pixel writes, and a color wipe on that strip performs exactly 4 writes. -/
theorem render_interrupt_latency_spot :
    (rainbowCycle offAfterTwo whiteStrip4).2 ≤ 2 + 1 ∧
    (colorWipe whiteStrip4 ⟨0, 255, 0⟩).2 = whiteStrip4.numPixels := by
  have hT : ∀ s, 2 ≤ s → offAfterTwo s = false := by
    intro s hs
    unfold offAfterTwo
    exact decide_eq_false (Nat.not_lt.mpr hs)
  exact ⟨(render_interrupt_latency offAfterTwo 2 whiteStrip4 ⟨0, 255, 0⟩ hT).1,
    (render_interrupt_latency offAfterTwo 2 whiteStrip4 ⟨0, 255, 0⟩ hT).2.1⟩

/-- C1 counterexample: the claim's re-check does NOT hold for the
solid/color-wipe routine.  `_colorWipe` contains no flag read at all, so
even with a power-off pending before its first pixel write (the situation
where a routine that re-checks would stop within one write) it performs
all 3 writes on a 3-pixel strip, not at most 1. -/
theorem colorWipe_never_rechecks_cex :
    (colorWipe ⟨List.replicate 3 ⟨255, 255, 255⟩, List.replicate 3 ⟨255, 255, 255⟩⟩
      ⟨0, 255, 0⟩).2 = 3 ∧ ¬ (3 ≤ 0 + 1) := by decide

/-- C2 (amended): applying `set_effect(e)` with a valid `e` publishes the
new effect and forces the power flag off, but it also enqueues a
`(CMD_ON, None)` command; the worker's next iteration dequeues that
command and powers the backlight ON — so changing the effect does turn the
backlight on as a side effect, rather than leaving it off until an
externally issued TurnOn. -/
theorem set_effect_enqueues_turn_on (d : Driver) (e : String) (he : e ∈ VALID_EFFECTS) :
    (d.set_effect e).state.effect = some e ∧
    (d.set_effect e).is_on = false ∧
    (d.set_effect e).cmd_queue = d.cmd_queue ++ [(Cmd.on, none)] ∧
    (d.has_callback = true →
      (d.set_effect e).published = d.published ++ [(d.set_effect e).state]) ∧
    (∀ d2 : Driver, ∀ rest, d2.cmd_queue = (Cmd.on, none) :: rest →
      d2.animateIteration.is_on = true) := by
  unfold Driver.set_effect
  rw [if_neg (not_not_intro he)]
  refine ⟨rfl, rfl, rfl, fun hcb => ?_, fun d2 rest hq =>
    animateIteration_is_on_of_queue_on d2 rest hq⟩
  simp [Driver.update_state, hcb]

/-- C2 witness: on a concrete driver, `set_effect('solid')` leaves the
power flag off, yet one worker iteration later the backlight is on. -/
theorem set_effect_enqueues_turn_on_spot :
    (((initDriver 1).set_state_callback).set_effect EFFECT_SOLID).is_on = false ∧
    ((((initDriver 1).set_state_callback).set_effect EFFECT_SOLID).animateIteration).is_on
      = true := by
  refine ⟨(set_effect_enqueues_turn_on ((initDriver 1).set_state_callback) EFFECT_SOLID
    (by decide)).2.1, ?_⟩
  exact (set_effect_enqueues_turn_on ((initDriver 1).set_state_callback) EFFECT_SOLID
    (by decide)).2.2.2.2 _ [] (by decide)

/-- C2 counterexample: starting from a freshly constructed driver (power
OFF, empty queue) where no caller ever issues TurnOn, `set_effect('solid')`
itself enqueues `(CMD_ON, None)`, and after the worker processes the queue
the power is ON — refuting "changing the effect does not itself power the
backlight on". -/
theorem set_effect_powers_on_cex :
    (((initDriver 1).set_state_callback).set_effect EFFECT_SOLID).is_on = false ∧
    (((initDriver 1).set_state_callback).set_effect EFFECT_SOLID).cmd_queue
      = [(Cmd.on, none)] ∧
    ((((initDriver 1).set_state_callback).set_effect EFFECT_SOLID).animateIteration).is_on
      = true := by decide

/-- Exhaustive check of the wheel invariant away from the four
exceptional positions. -/
theorem wheel_ball :
    ∀ pos < 256, pos ≠ 0 → pos ≠ 85 → pos ≠ 170 → pos ≠ 255 →
      oneZeroSum255 (wheel pos) := by decide

/-- C3 (amended): for every wheel position in [0, 256) outside the
exception set {0, 85, 170, 255}, the wheel value has exactly one zero
channel and the other two channels sum to 255; and the 84-to-85 segment
transition is continuous (each channel moves by at most 3).  (The claim's
exception set {0, 85, 170} must be extended with 255, where the third
segment closes: `wheel 255 = (0, 255, 0)` has two zero channels.) -/
theorem wheel_one_zero_sum (pos : Nat) (h : pos < 256) (h0 : pos ≠ 0)
    (h85 : pos ≠ 85) (h170 : pos ≠ 170) (h255 : pos ≠ 255) :
    oneZeroSum255 (wheel pos) ∧ wheelContinuityAt85 :=
  ⟨wheel_ball pos h h0 h85 h170 h255, by decide⟩

/-- C3 witness: position 42 satisfies all the hypotheses and the wheel
invariant there evaluates to true. -/
theorem wheel_one_zero_sum_spot :
    oneZeroSum255 (wheel 42) ∧ wheelContinuityAt85 :=
  wheel_one_zero_sum 42 (by decide) (by decide) (by decide) (by decide) (by decide)

/-- C3 counterexample: position 255 lies in [0, 256), is none of the
claim's three excepted boundaries 0, 85, 170, yet `wheel 255 = (0, 255, 0)`
has two zero channels, so "exactly one channel equals 0" fails there. -/
theorem wheel_claim_fails_at_255_cex :
    (255 : Nat) < 256 ∧ (255 : Nat) ≠ 0 ∧ (255 : Nat) ≠ 85 ∧ (255 : Nat) ≠ 170 ∧
    wheel 255 = ⟨0, 255, 0⟩ ∧ ¬ oneZeroSum255 (wheel 255) := by decide

/-- C4: the color `_rainbowCycle` writes to pixel `i` at phase `j` on an
`n`-pixel strip is the wheel of `hue = (floor(i*256/n) + j) mod 256`, with
the wheel given by the spec's three-segment piecewise-linear formula
(`wheelSpec`): the source's `& 255` is mod 256 and the source `_wheel`
refines the spec formula on [0, 256). -/
theorem rainbow_pixel_color_formula (n i j : Nat) :
    rainbowPixelColor n i j = wheelSpec ((i * 256 / n + j) % 256) := by
  unfold rainbowPixelColor
  rw [land_255_eq_mod]
  exact wheel_eq_wheelSpec _ (Nat.mod_lt _ (by norm_num))

/-- C5 (amended): the calls `set_solid_color(red)`, `set_effect('solid')`,
`turn_on()` are applied in issuance order — afterwards the published state
holds color red and effect solid and the power is on — but the color the
next worker iteration renders to every pixel is `Color(0, 255, 0)`, the
red/green-swapped image of red produced by `set_solid_color`'s
`Color(g, r, b)` argument order, not `Color(255, 0, 0)`. -/
theorem command_order_rendered_color (n : Nat) :
    (cmdSeq n ⟨255, 0, 0⟩).state.color = some ⟨255, 0, 0⟩ ∧
    (cmdSeq n ⟨255, 0, 0⟩).state.effect = some EFFECT_SOLID ∧
    (cmdSeq n ⟨255, 0, 0⟩).is_on = true ∧
    (cmdSeq n ⟨255, 0, 0⟩).solid_color = ⟨0, 255, 0⟩ ∧
    (∀ k, k < n →
      (((cmdSeq n ⟨255, 0, 0⟩).animateIteration).strip.pixels)[k]? = some ⟨0, 255, 0⟩) := by
  refine ⟨rfl, rfl, rfl, rfl, fun k hk => ?_⟩
  have hstrip : ((cmdSeq n ⟨255, 0, 0⟩).animateIteration).strip
      = (colorWipe ⟨List.replicate n ⟨0, 0, 0⟩, List.replicate n ⟨0, 0, 0⟩⟩ ⟨0, 255, 0⟩).1 :=
    rfl
  rw [hstrip]
  exact colorWipe_pixels_getElem _ _ k (by simpa [Strip.numPixels] using hk)

/-- C5 counterexample: on a 1-pixel strip the value rendered after the
sequence is `Color(0, 255, 0)`, which is not red (`Color(255, 0, 0)`),
even though the published color is red. -/
theorem rendered_color_not_red_cex :
    ((cmdSeq 1 ⟨255, 0, 0⟩).animateIteration).strip.pixels = [⟨0, 255, 0⟩] ∧
    (cmdSeq 1 ⟨255, 0, 0⟩).state.color = some ⟨255, 0, 0⟩ ∧
    ((⟨0, 255, 0⟩ : Color) ≠ ⟨255, 0, 0⟩) := by decide

/-- C6: after `set_solid_color({r:10,g:20,b:30})`, `set_effect('solid')`,
`turn_on()` (on a started driver with the state callback registered), the
snapshot most recently handed to the state callback is exactly
`state = ON`, `effect = solid`, `color = {r:10,g:20,b:30}`. -/
theorem round_trip_published_state :
    (cmdSeq 60 ⟨10, 20, 30⟩).published.getLast? =
      some ⟨some STATE_ON, some EFFECT_SOLID, some ⟨10, 20, 30⟩⟩ := by decide

/-- C7: once `stop()` has cleared `_animation_running` so that its `N`-th
read (and in particular any later read the loop would make) returns false,
the `_animate` worker loop completes within `N + 1` iterations for every
driver state and command history — so `join()` in `stop()` returns.  Each
iteration is itself a total function (all render loops run over the finite
ranges `range(256*5)` and `range(numPixels)`), so the worker terminates. -/
theorem stop_worker_terminates (running : Nat → Bool) (N : Nat) (d : Driver)
    (hN : running N = false) :
    (animateLoopAux running 0 (N + 1) d).isSome = true :=
  animateLoopAux_isSome running N hN (N + 1) 0 d (Nat.zero_le N) (by omega)

/-- C7 witness: with the running flag false from its third read, the loop
on a freshly constructed 1-LED driver returns within 3 iterations. -/
theorem stop_worker_terminates_spot :
    (animateLoopAux offAfterTwo 0 3 (initDriver 1)).isSome = true :=
  stop_worker_terminates offAfterTwo 2 (initDriver 1) (by decide)

/-- C8: `set_effect` with a name outside `VALID_EFFECTS` returns the
driver completely unchanged: same stored effect, power, color, queue, and
publish history (nothing is published), and no exception escapes — the
invalid name is only logged. -/
theorem invalid_effect_noop (d : Driver) (e : String) (he : e ∉ VALID_EFFECTS) :
    d.set_effect e = d := by
  unfold Driver.set_effect
  rw [if_pos he]

/-- C8 witness: `set_effect('invalid')` on a concrete 60-LED driver is the
identity. -/
theorem invalid_effect_noop_spot :
    badEffect ∉ VALID_EFFECTS ∧ (initDriver 60).set_effect badEffect = initDriver 60 :=
  ⟨by decide, invalid_effect_noop (initDriver 60) badEffect (by decide)⟩

/-- C9: `start()` on a freshly constructed driver (with the state callback
registered, as the MQTT client does before starting) immediately sets
`_is_on = True` and publishes a snapshot with `state = ON`, without any
TurnOn command having been enqueued or processed (the queue is empty);
afterwards the driver is not in the OFF state. -/
theorem start_powers_on (n : Nat) :
    (startedDriver n).is_on = true ∧
    (startedDriver n).state.state = some STATE_ON ∧
    (startedDriver n).published.getLast? = some ((startedDriver n).state) ∧
    (startedDriver n).cmd_queue = [] ∧
    (startedDriver n).state.state ≠ some STATE_OFF := by
  refine ⟨rfl, rfl, rfl, rfl, fun h => ?_⟩
  have h2 : some STATE_ON = some STATE_OFF := h
  exact absurd h2 (by decide)

/-- C10: `set_solid_color({r,g,b})` stores the hardware color with red and
green swapped — `Color(g, r, b)` — while publishing the caller's original
dict; consequently, whenever `r ≠ g`, the value the solid-effect wipe
writes to every pixel differs in channel order from the published color. -/
theorem solid_color_channel_swap (d : Driver) (c : RGB) (h : c.r ≠ c.g) :
    (d.set_solid_color c).solid_color = ⟨c.g, c.r, c.b⟩ ∧
    (d.set_solid_color c).state.color = some c ∧
    (∀ k, k < d.strip.numPixels →
      ((colorWipe d.strip (d.set_solid_color c).solid_color).1.pixels)[k]?
        = some ⟨c.g, c.r, c.b⟩) ∧
    (Color.mk c.g c.r c.b ≠ Color.mk c.r c.g c.b) := by
  refine ⟨rfl, rfl, fun k hk => ?_, fun hEq => ?_⟩
  · exact colorWipe_pixels_getElem d.strip _ k hk
  · exact h ((congrArg Color.red hEq).symm)

/-- C10 witness: for caller red `{r:255,g:0,b:0}` the stored hardware
color is `Color(0, 255, 0)` and that value is what the wipe writes to
pixel 0 of a 2-LED strip. -/
theorem solid_color_channel_swap_spot :
    ((initDriver 2).set_solid_color ⟨255, 0, 0⟩).solid_color = ⟨0, 255, 0⟩ ∧
    ((colorWipe (initDriver 2).strip
      ((initDriver 2).set_solid_color ⟨255, 0, 0⟩).solid_color).1.pixels)[0]?
        = some ⟨0, 255, 0⟩ := by
  refine ⟨(solid_color_channel_swap (initDriver 2) ⟨255, 0, 0⟩ (by decide)).1, ?_⟩
  exact (solid_color_channel_swap (initDriver 2) ⟨255, 0, 0⟩ (by decide)).2.2.1 0 (by decide)
